import Mathlib

/-!
Verification of the event-discovery pipeline of the Free campus-events app.

The embedding follows `src/src/screens/FeedScreen.tsx`, which contains two
divergent copies of the feed screen:
  * version 1: `calculateDistance` (lines 67-77), `fetchEvents` (79-147),
    `applyFiltersAndSort` (150-219);
  * version 2: the same functions at lines 1124-1134, 1136-1204, 1207-1283.
The two versions differ only in the geo-filter stage, so the shared stages
(category filter, sort strategies, visibility merge) are defined once and the
two geo filters live in namespaces `V1` and `V2`.

Modelling conventions:
  * JS numbers carrying coordinates and radii are modelled by a numeric type
    `α` with a `LinearOrder` (instantiated at `ℝ` for statements about the
    actual haversine distance, and at computable types for evaluation);
  * ISO timestamp strings compared via `new Date(s).getTime()` are modelled
    as `Int` milliseconds (the conversion is monotone and injective on the
    values the app produces, so `gte` on the column and `getTime`
    comparisons both become `≤` on `Int`);
  * a field that may be structurally absent or non-numeric
    (`typeof x !== 'number'`) is an `Option`;
  * `Array.prototype.sort` is the stable sort mandated by ECMAScript; it is
    modelled by `List.insertionSort`, which is stable.  A comparator result
    of NaN is treated as `+0` by the ECMAScript `SortCompare` operation,
    i.e. as a tie, which is how the missing-coordinate branches are modelled.
-/

namespace Free

/-- Two-argument arctangent with the quadrant conventions of `Math.atan2`
(used by `calculateDistance`; `Math.atan2(0, 0) = 0`). -/
noncomputable def atan2 (y x : ℝ) : ℝ :=
  if 0 < x then Real.arctan (y / x)
  else if x < 0 then
    (if 0 ≤ y then Real.arctan (y / x) + Real.pi else Real.arctan (y / x) - Real.pi)
  else
    (if 0 < y then Real.pi / 2 else if y < 0 then -(Real.pi / 2) else 0)

/-- `calculateDistance` (FeedScreen.tsx lines 67-77, identical at 1124-1134):
haversine distance in miles between two coordinates given in degrees, with
Earth radius `R = 3958.8` miles. -/
noncomputable def calculateDistance (lat1 lon1 lat2 lon2 : ℝ) : ℝ :=
  let R : ℝ := 3958.8
  let dLat := (lat2 - lat1) * (Real.pi / 180)
  let dLon := (lon2 - lon1) * (Real.pi / 180)
  let a := Real.sin (dLat / 2) * Real.sin (dLat / 2) +
    Real.cos (lat1 * (Real.pi / 180)) * Real.cos (lat2 * (Real.pi / 180)) *
    Real.sin (dLon / 2) * Real.sin (dLon / 2)
  let c := 2 * atan2 (Real.sqrt a) (Real.sqrt (1 - a))
  R * c

/-- Haversine distance as the spec states it (spec.md section 4.3): convert
degrees to radians, `a = sin²(Δlat/2) + cos(lat1)·cos(lat2)·sin²(Δlon/2)`,
`distance = 2·R·atan2(√a, √(1−a))`, `R = 3958.8` miles.  Written from the
spec text, to be compared with `calculateDistance` from the source. -/
noncomputable def haversineSpec (lat1 lon1 lat2 lon2 : ℝ) : ℝ :=
  let phi1 := lat1 * (Real.pi / 180)
  let phi2 := lat2 * (Real.pi / 180)
  let lam1 := lon1 * (Real.pi / 180)
  let lam2 := lon2 * (Real.pi / 180)
  let a := Real.sin ((phi2 - phi1) / 2) ^ 2 +
    Real.cos phi1 * Real.cos phi2 * Real.sin ((lam2 - lam1) / 2) ^ 2
  2 * 3958.8 * atan2 (Real.sqrt a) (Real.sqrt (1 - a))

/-- The `location` object of a `FreeEvent` (src/src/types/navigation.ts lines
32-37).  The filters guard against `typeof latitude !== 'number'`, so each
coordinate field is an `Option`; the optional `address`/`buildingName` display
fields play no role in the pipeline and are omitted. -/
structure EventLocation (α : Type) where
  latitude : Option α
  longitude : Option α
deriving DecidableEq

/-- The `FreeEvent` record (src/src/types/navigation.ts lines 28-46).
`start_date` and `created_at` are timestamps in `Int` milliseconds; the
fields never read by the pipeline (`end_date`, `images`, `participants`) are
omitted.  `university` is the optional organization scope. -/
structure FreeEvent (α : Type) where
  id : String
  title : String
  description : String
  category : String
  start_date : Int
  created_at : Int
  created_by : String
  location : Option (EventLocation α)
  university : Option String
deriving DecidableEq

/-- The device position held in the `userLocation` state (FeedScreen.tsx line
42). -/
structure UserLocation (α : Type) where
  latitude : α
  longitude : α
deriving DecidableEq

/-- The `SORT_OPTIONS` constant (FeedScreen.tsx line 27). -/
inductive SortOption : Type where
  | RECENT : SortOption
  | POPULAR : SortOption
  | NEARBY : SortOption
deriving DecidableEq

/-- The transient filter state read by `applyFiltersAndSort`
(`selectedCategory`, `selectedSortOption`, `selectedDistance`,
`userLocation`; FeedScreen.tsx lines 35-42). -/
structure FilterState (α : Type) where
  selectedCategory : String
  selectedSortOption : SortOption
  selectedDistance : α
  userLocation : Option (UserLocation α)

/-- The valid numeric coordinate of an event, when it has one: the checks
`event.location && typeof event.location.latitude === 'number' &&
typeof event.location.longitude === 'number'` succeed exactly when this is
`some`. -/
def coordinatesOf {α : Type} (e : FreeEvent α) : Option (α × α) :=
  match e.location with
  | none => none
  | some el =>
    match el.latitude, el.longitude with
    | some la, some lo => some (la, lo)
    | _, _ => none

/-- JS truthiness of the `userUniversity : string | null` state: `null` and
the empty string are falsy. -/
def isTruthy : Option String → Bool
  | none => false
  | some s => decide (s ≠ "")

/-- The university-partition query of `fetchEvents` (FeedScreen.tsx lines
103-117): all events with `start_date ≥ today`, further restricted by
`.eq('university', userUniversity)` only when `userUniversity` is truthy. -/
def universityQuery {α : Type} (table : List (FreeEvent α)) (today : Int)
    (userUniversity : Option String) : List (FreeEvent α) :=
  let base := table.filter (fun e => decide (today ≤ e.start_date))
  if isTruthy userUniversity then
    base.filter (fun e => decide (e.university = userUniversity))
  else
    base

/-- The public-partition query of `fetchEvents` (FeedScreen.tsx lines
108-112): events with `start_date ≥ today` and `university IS NULL`. -/
def publicQuery {α : Type} (table : List (FreeEvent α)) (today : Int) :
    List (FreeEvent α) :=
  table.filter (fun e => decide (today ≤ e.start_date) && decide (e.university = none))

/-- The `combinedEvents` array of `fetchEvents` (FeedScreen.tsx lines
126-129): the concatenation of the two partition results. -/
def combinedEvents {α : Type} (table : List (FreeEvent α)) (today : Int)
    (userUniversity : Option String) : List (FreeEvent α) :=
  universityQuery table today userUniversity ++ publicQuery table today

/-- The outcome of one `fetchEvents` call (FeedScreen.tsx lines 79-147).
`authFails` models `supabase.auth.getUser()` returning an error: the code
does `throw userError`, landing in the catch block, so no event list is
published (`none`).  A failed partition query is modelled by its flag: the
code reads `result.data || []`, so that partition degrades to `[]`. -/
def fetchEvents {α : Type} (authFails uniQueryFails pubQueryFails : Bool)
    (table : List (FreeEvent α)) (today : Int) (userUniversity : Option String) :
    Option (List (FreeEvent α)) :=
  if authFails then none
  else some
    ((if uniQueryFails then [] else universityQuery table today userUniversity) ++
     (if pubQueryFails then [] else publicQuery table today))

/-- The category stage of `applyFiltersAndSort` (FeedScreen.tsx lines
154-158, identical at 1211-1215): pass-through for the ALL sentinel,
otherwise an exact string-equality filter on `category`. -/
def categoryFilter {α : Type} (selectedCategory : String)
    (l : List (FreeEvent α)) : List (FreeEvent α) :=
  if selectedCategory = "ALL" then l
  else l.filter (fun e => decide (e.category = selectedCategory))

/-- The per-event radius test of the geo stage (FeedScreen.tsx lines
162-175): events missing a location object or a numeric latitude/longitude
are rejected, otherwise the distance to the user is compared with the
selected radius. -/
def withinRadius {α : Type} [LinearOrder α] (dist : α → α → α → α → α)
    (loc : UserLocation α) (radius : α) (e : FreeEvent α) : Bool :=
  match coordinatesOf e with
  | none => false
  | some p => decide (dist loc.latitude loc.longitude p.1 p.2 ≤ radius)

/-- The validity test of version 2's NEARBY geo branch (FeedScreen.tsx lines
1235-1239): keep exactly the events with a location object and numeric
latitude/longitude. -/
def hasValidCoordinates {α : Type} (e : FreeEvent α) : Bool :=
  (coordinatesOf e).isSome

/-- Relation in which the stable sort for RECENT arranges the list: the
comparator `(a, b) => getTime(b.created_at) - getTime(a.created_at)`
(FeedScreen.tsx line 181) puts `a` no later than `b` exactly when it is
non-positive. -/
def recentLE {α : Type} (a b : FreeEvent α) : Prop :=
  b.created_at ≤ a.created_at

instance {α : Type} : DecidableRel (recentLE (α := α)) :=
  fun a b => inferInstanceAs (Decidable (b.created_at ≤ a.created_at))

/-- Relation of the POPULAR comparator
`(a, b) => getTime(a.start_date) - getTime(b.start_date)` (FeedScreen.tsx
line 186). -/
def popularLE {α : Type} (a b : FreeEvent α) : Prop :=
  a.start_date ≤ b.start_date

instance {α : Type} : DecidableRel (popularLE (α := α)) :=
  fun a b => inferInstanceAs (Decidable (a.start_date ≤ b.start_date))

/-- Relation of the NEARBY comparator (FeedScreen.tsx lines 190-208): when
either event has no location object the comparator returns `0` (a tie), and
when a coordinate field is missing the JS arithmetic yields NaN, which the
ECMAScript `SortCompare` operation also treats as `+0`; both cases are the
`True` branch.  Otherwise the events compare by distance to the user. -/
def nearbyLE {α : Type} [LinearOrder α] (dist : α → α → α → α → α)
    (loc : UserLocation α) (a b : FreeEvent α) : Prop :=
  match coordinatesOf a, coordinatesOf b with
  | some pa, some pb =>
      dist loc.latitude loc.longitude pa.1 pa.2 ≤ dist loc.latitude loc.longitude pb.1 pb.2
  | _, _ => True

instance {α : Type} [LinearOrder α] (dist : α → α → α → α → α)
    (loc : UserLocation α) : DecidableRel (nearbyLE (α := α) dist loc) := by
  intro a b
  unfold nearbyLE
  exact
    match coordinatesOf a, coordinatesOf b with
    | some pa, some pb => inferInstanceAs (Decidable (_ ≤ _))
    | some _, none => inferInstanceAs (Decidable True)
    | none, some _ => inferInstanceAs (Decidable True)
    | none, none => inferInstanceAs (Decidable True)

/-- The sort stage of `applyFiltersAndSort` (FeedScreen.tsx lines 178-211,
identical at 1242-1275): a stable sort by the comparator selected by
`selectedSortOption`; for NEARBY without a user location no sort call is
made. -/
def sortEvents {α : Type} [LinearOrder α] (dist : α → α → α → α → α)
    (sortOpt : SortOption) (userLocation : Option (UserLocation α))
    (l : List (FreeEvent α)) : List (FreeEvent α) :=
  match sortOpt with
  | SortOption.RECENT => List.insertionSort recentLE l
  | SortOption.POPULAR => List.insertionSort popularLE l
  | SortOption.NEARBY =>
    match userLocation with
    | some loc => List.insertionSort (nearbyLE dist loc) l
    | none => l

namespace V1

/-- The geo stage of version 1 (FeedScreen.tsx lines 161-176): the radius
filter runs only when a user location is present AND the strategy is NEARBY;
otherwise the stage passes the list through. -/
def geoFilter {α : Type} [LinearOrder α] (dist : α → α → α → α → α)
    (userLocation : Option (UserLocation α)) (sortOpt : SortOption)
    (radius : α) (l : List (FreeEvent α)) : List (FreeEvent α) :=
  match userLocation, sortOpt with
  | some loc, SortOption.NEARBY => l.filter (withinRadius dist loc radius)
  | _, _ => l

/-- `applyFiltersAndSort` of version 1 (FeedScreen.tsx lines 150-219):
category filter, then geo filter, then sort. -/
def applyFiltersAndSort {α : Type} [LinearOrder α] (dist : α → α → α → α → α)
    (st : FilterState α) (l : List (FreeEvent α)) : List (FreeEvent α) :=
  sortEvents dist st.selectedSortOption st.userLocation
    (geoFilter dist st.userLocation st.selectedSortOption st.selectedDistance
      (categoryFilter st.selectedCategory l))

/-- Content of the caller's array AFTER `applyFiltersAndSort` returns.  In
the source, `let filtered = eventsToFilter` aliases the argument; each
`.filter` call allocates a fresh array, but `.sort` mutates in place.  So
the caller's array is reordered exactly when no filter branch ran: the
category is the ALL sentinel and the geo branch was skipped. -/
def inputAfter {α : Type} [LinearOrder α] (dist : α → α → α → α → α)
    (st : FilterState α) (l : List (FreeEvent α)) : List (FreeEvent α) :=
  if st.selectedCategory = "ALL" ∧
      ¬ (st.userLocation.isSome = true ∧ st.selectedSortOption = SortOption.NEARBY) then
    sortEvents dist st.selectedSortOption st.userLocation l
  else l

end V1

namespace V2

/-- The geo stage of version 2 (FeedScreen.tsx lines 1217-1240): with a user
location present, the radius filter runs exactly when the strategy is NOT
NEARBY; for NEARBY the stage only drops events without valid coordinates. -/
def geoFilter {α : Type} [LinearOrder α] (dist : α → α → α → α → α)
    (userLocation : Option (UserLocation α)) (sortOpt : SortOption)
    (radius : α) (l : List (FreeEvent α)) : List (FreeEvent α) :=
  match userLocation, sortOpt with
  | some _, SortOption.NEARBY => l.filter hasValidCoordinates
  | some loc, _ => l.filter (withinRadius dist loc radius)
  | none, _ => l

/-- `applyFiltersAndSort` of version 2 (FeedScreen.tsx lines 1207-1283). -/
def applyFiltersAndSort {α : Type} [LinearOrder α] (dist : α → α → α → α → α)
    (st : FilterState α) (l : List (FreeEvent α)) : List (FreeEvent α) :=
  sortEvents dist st.selectedSortOption st.userLocation
    (geoFilter dist st.userLocation st.selectedSortOption st.selectedDistance
      (categoryFilter st.selectedCategory l))

end V2

/-- Distance from the user to an event, for stating the NEARBY
postcondition; the default `0` is never used on events that passed the geo
stage, which all have coordinates. -/
noncomputable def haversineToUser (loc : UserLocation ℝ) (e : FreeEvent ℝ) : ℝ :=
  match coordinatesOf e with
  | some p => calculateDistance loc.latitude loc.longitude p.1 p.2
  | none => 0

/-! ### Concrete sample inputs for evaluations -/

/-- Event constructor for concrete examples over a computable coordinate
type (only the fields relevant to the example vary). -/
def mkEventZ (i cat : String) (sd ca : Int) (uni : Option String) : FreeEvent Int :=
  ⟨i, "title", "descr", cat, sd, ca, "creator", none, uni⟩

/-- A public (scope-absent) event starting after time 0. -/
def evPublic : FreeEvent Int := mkEventZ "pub" "FOOD" 1 0 none

/-- An event scoped to the MIT organization. -/
def evMIT : FreeEvent Int := mkEventZ "mit" "SPORTS" 1 0 (some "MIT")

/-- An event scoped to a different organization. -/
def evOther : FreeEvent Int := mkEventZ "other" "FOOD" 1 0 (some "Harvard")

/-- Created at time 0 (older). -/
def evA : FreeEvent Int := mkEventZ "a" "FOOD" 5 0 none

/-- Created at time 1 (newer). -/
def evB : FreeEvent Int := mkEventZ "b" "CONCERT" 3 1 none

/-- A trivial distance function for evaluating the generic pipeline on
branches that never read distances. -/
def distZero : Int → Int → Int → Int → Int := fun _ _ _ _ => 0

/-- The filter state exhibiting the in-place sort: ALL category, RECENT
sort, no user location. -/
def stRecentZ : FilterState Int := ⟨"ALL", SortOption.RECENT, 5, none⟩

/-- A user standing at the origin. -/
def uZero : UserLocation ℝ := ⟨0, 0⟩

/-- An event located exactly at the origin (distance 0 from `uZero`). -/
def eNear : FreeEvent ℝ :=
  ⟨"near", "title", "descr", "FOOD", 0, 0, "creator", some ⟨some 0, some 0⟩, none⟩

/-- An event at (0, 1) degrees: about 69.09 miles from `uZero`. -/
def eFar : FreeEvent ℝ :=
  ⟨"far", "title", "descr", "FOOD", 0, 0, "creator", some ⟨some 0, some 1⟩, none⟩

/-- NEARBY filter state at the origin with a 5-mile radius. -/
def stNearbyR : FilterState ℝ := ⟨"ALL", SortOption.NEARBY, 5, some uZero⟩

/-- RECENT filter state at the origin with a 5-mile radius. -/
def stRecentR : FilterState ℝ := ⟨"ALL", SortOption.RECENT, 5, some uZero⟩

/-! ### Helper lemmas about the distance utility -/

/-- The haversine intermediate `a`, abbreviated for proofs. -/
noncomputable def havA (lat1 lon1 lat2 lon2 : ℝ) : ℝ :=
  Real.sin ((lat2 - lat1) * (Real.pi / 180) / 2) ^ 2 +
  Real.cos (lat1 * (Real.pi / 180)) * Real.cos (lat2 * (Real.pi / 180)) *
  Real.sin ((lon2 - lon1) * (Real.pi / 180) / 2) ^ 2

lemma atan2_of_pos {y x : ℝ} (hx : 0 < x) : atan2 y x = Real.arctan (y / x) :=
  if_pos hx

lemma atan2_zero_one : atan2 0 1 = 0 := by
  rw [atan2_of_pos one_pos]
  simp

lemma calculateDistance_eq (lat1 lon1 lat2 lon2 : ℝ) :
    calculateDistance lat1 lon1 lat2 lon2 =
      3958.8 * (2 * atan2 (Real.sqrt (havA lat1 lon1 lat2 lon2))
        (Real.sqrt (1 - havA lat1 lon1 lat2 lon2))) := by
  simp only [calculateDistance, havA, pow_two]
  ring_nf

lemma haversineSpec_eq (lat1 lon1 lat2 lon2 : ℝ) :
    haversineSpec lat1 lon1 lat2 lon2 =
      2 * 3958.8 * atan2 (Real.sqrt (havA lat1 lon1 lat2 lon2))
        (Real.sqrt (1 - havA lat1 lon1 lat2 lon2)) := by
  simp only [haversineSpec, havA]
  rw [show (lat2 * (Real.pi / 180) - lat1 * (Real.pi / 180)) / 2 =
      (lat2 - lat1) * (Real.pi / 180) / 2 by ring,
    show (lon2 * (Real.pi / 180) - lon1 * (Real.pi / 180)) / 2 =
      (lon2 - lon1) * (Real.pi / 180) / 2 by ring]

lemma havA_comm (lat1 lon1 lat2 lon2 : ℝ) :
    havA lat1 lon1 lat2 lon2 = havA lat2 lon2 lat1 lon1 := by
  unfold havA
  rw [show (lat1 - lat2) * (Real.pi / 180) / 2 =
      -((lat2 - lat1) * (Real.pi / 180) / 2) by ring,
    show (lon1 - lon2) * (Real.pi / 180) / 2 =
      -((lon2 - lon1) * (Real.pi / 180) / 2) by ring,
    Real.sin_neg, Real.sin_neg]
  ring

lemma calculateDistance_comm (lat1 lon1 lat2 lon2 : ℝ) :
    calculateDistance lat1 lon1 lat2 lon2 = calculateDistance lat2 lon2 lat1 lon1 := by
  rw [calculateDistance_eq, calculateDistance_eq, havA_comm]

lemma havA_self (lat lon : ℝ) : havA lat lon lat lon = 0 := by
  unfold havA
  simp [sub_self]

lemma calculateDistance_self (lat lon : ℝ) : calculateDistance lat lon lat lon = 0 := by
  rw [calculateDistance_eq, havA_self]
  rw [Real.sqrt_zero, sub_zero, Real.sqrt_one, atan2_zero_one]
  ring

lemma calculateDistance_eq_haversineSpec (lat1 lon1 lat2 lon2 : ℝ) :
    calculateDistance lat1 lon1 lat2 lon2 = haversineSpec lat1 lon1 lat2 lon2 := by
  rw [calculateDistance_eq, haversineSpec_eq]
  ring

lemma havA_zero_one : havA 0 0 0 1 = Real.sin (Real.pi / 360) ^ 2 := by
  unfold havA
  rw [show ((0 : ℝ) - 0) * (Real.pi / 180) / 2 = 0 by ring,
    show ((1 : ℝ) - 0) * (Real.pi / 180) / 2 = Real.pi / 360 by ring]
  simp

lemma calculateDistance_zero_one :
    calculateDistance 0 0 0 1 = 3958.8 * Real.pi / 180 := by
  have hpi := Real.pi_pos
  have h0 : (0 : ℝ) < Real.pi / 360 := by linarith
  have h2 : Real.pi / 360 < Real.pi / 2 := by linarith
  have hsin : 0 ≤ Real.sin (Real.pi / 360) :=
    Real.sin_nonneg_of_nonneg_of_le_pi (le_of_lt h0) (by linarith)
  have hcos : 0 < Real.cos (Real.pi / 360) :=
    Real.cos_pos_of_mem_Ioo ⟨by linarith, h2⟩
  rw [calculateDistance_eq, havA_zero_one]
  rw [Real.sqrt_sq hsin]
  rw [show 1 - Real.sin (Real.pi / 360) ^ 2 = Real.cos (Real.pi / 360) ^ 2 by
    have h := Real.sin_sq_add_cos_sq (Real.pi / 360); linarith]
  rw [Real.sqrt_sq (le_of_lt hcos)]
  rw [atan2_of_pos hcos, ← Real.tan_eq_sin_div_cos,
    Real.arctan_tan (by linarith) h2]
  ring

lemma calculateDistance_zero_one_gt : 69.08 < calculateDistance 0 0 0 1 := by
  rw [calculateDistance_zero_one]
  nlinarith [Real.pi_gt_d6]

lemma calculateDistance_zero_one_lt : calculateDistance 0 0 0 1 < 69.1 := by
  rw [calculateDistance_zero_one]
  nlinarith [Real.pi_lt_d6]

/-! ### Helper lemmas about the stable sort

`List.insertionSort` is sorted for a relation that is total and transitive
on the elements actually present in the list (the NEARBY comparator is only
transitive on events that have coordinates), and it keeps the relative order
of elements with equal sort keys. -/

lemma pairwise_orderedInsert_of {β : Type} (r : β → β → Prop) [DecidableRel r]
    (P : β → Prop)
    (total : ∀ x y, P x → P y → r x y ∨ r y x)
    (trans : ∀ x y z, P x → P y → P z → r x y → r y z → r x z)
    (a : β) (ha : P a) :
    ∀ l : List β, (∀ x ∈ l, P x) → l.Pairwise r → (l.orderedInsert r a).Pairwise r
  | [], _, _ => by simp
  | b :: t, hP, hp => by
    rw [List.orderedInsert]
    by_cases hab : r a b
    · rw [if_pos hab]
      refine List.pairwise_cons.mpr ⟨?_, hp⟩
      intro y hy
      rcases List.mem_cons.mp hy with rfl | hyt
      · exact hab
      · exact trans a b y ha (hP b (by simp)) (hP y (by simp [hyt]))
          hab ((List.pairwise_cons.mp hp).1 y hyt)
    · rw [if_neg hab]
      have hba : r b a := (total a b ha (hP b (by simp))).resolve_left hab
      have tail := pairwise_orderedInsert_of r P total trans a ha t
        (fun x hx => hP x (by simp [hx])) (List.pairwise_cons.mp hp).2
      refine List.pairwise_cons.mpr ⟨?_, tail⟩
      intro y hy
      rcases (List.mem_orderedInsert r).mp hy with rfl | hyt
      · exact hba
      · exact (List.pairwise_cons.mp hp).1 y hyt

lemma pairwise_insertionSort_of {β : Type} (r : β → β → Prop) [DecidableRel r]
    (P : β → Prop)
    (total : ∀ x y, P x → P y → r x y ∨ r y x)
    (trans : ∀ x y z, P x → P y → P z → r x y → r y z → r x z) :
    ∀ l : List β, (∀ x ∈ l, P x) → (l.insertionSort r).Pairwise r
  | [], _ => by simp
  | x :: xs, hP => by
    rw [List.insertionSort]
    exact pairwise_orderedInsert_of r P total trans x (hP x (by simp))
      (xs.insertionSort r)
      (fun y hy => hP y (by
        simp [(List.perm_insertionSort r xs).mem_iff.mp hy]))
      (pairwise_insertionSort_of r P total trans xs
        (fun y hy => hP y (by simp [hy])))

lemma filter_orderedInsert_pos {β : Type} (r : β → β → Prop) [DecidableRel r]
    (p : β → Bool) (a : β) (hpa : p a = true)
    (hskip : ∀ b, ¬ r a b → p b = false) :
    ∀ l : List β, (l.orderedInsert r a).filter p = a :: l.filter p
  | [] => by simp [hpa]
  | b :: t => by
    rw [List.orderedInsert]
    by_cases hab : r a b
    · rw [if_pos hab]
      simp [hpa]
    · rw [if_neg hab]
      have hpb := hskip b hab
      simp [hpb, filter_orderedInsert_pos r p a hpa hskip t]

lemma filter_orderedInsert_neg {β : Type} (r : β → β → Prop) [DecidableRel r]
    (p : β → Bool) (a : β) (hpa : p a = false) :
    ∀ l : List β, (l.orderedInsert r a).filter p = l.filter p
  | [] => by simp [hpa]
  | b :: t => by
    rw [List.orderedInsert]
    by_cases hab : r a b
    · rw [if_pos hab]
      simp [hpa]
    · rw [if_neg hab]
      rw [List.filter_cons, List.filter_cons, filter_orderedInsert_neg r p a hpa t]

lemma filter_insertionSort {β : Type} (r : β → β → Prop) [DecidableRel r]
    (p : β → Bool)
    (hconsist : ∀ a b, p a = true → ¬ r a b → p b = false) :
    ∀ l : List β, (l.insertionSort r).filter p = l.filter p
  | [] => rfl
  | x :: xs => by
    rw [List.insertionSort]
    by_cases hx : p x = true
    · rw [filter_orderedInsert_pos r p x hx (fun b => hconsist x b hx),
        filter_insertionSort r p hconsist xs]
      simp [hx]
    · have hx' : p x = false := by
        cases h : p x
        · rfl
        · exact absurd h hx
      rw [filter_orderedInsert_neg r p x hx',
        filter_insertionSort r p hconsist xs]
      simp [hx']

/-! ### Permutation and sublist facts about the pipeline stages -/

lemma sortEvents_perm {α : Type} [LinearOrder α] (dist : α → α → α → α → α)
    (sortOpt : SortOption) (userLocation : Option (UserLocation α))
    (l : List (FreeEvent α)) : List.Perm (sortEvents dist sortOpt userLocation l) l := by
  cases sortOpt with
  | RECENT => exact List.perm_insertionSort _ l
  | POPULAR => exact List.perm_insertionSort _ l
  | NEARBY =>
    cases userLocation with
    | none => exact List.Perm.refl l
    | some loc => exact List.perm_insertionSort _ l

lemma categoryFilter_sublist {α : Type} (c : String) (l : List (FreeEvent α)) :
    List.Sublist (categoryFilter c l) l := by
  unfold categoryFilter
  by_cases hc : c = "ALL"
  · rw [if_pos hc]
  · rw [if_neg hc]
    exact List.filter_sublist l

lemma geoFilterV1_sublist {α : Type} [LinearOrder α] (dist : α → α → α → α → α)
    (userLocation : Option (UserLocation α)) (sortOpt : SortOption) (radius : α)
    (l : List (FreeEvent α)) :
    List.Sublist (V1.geoFilter dist userLocation sortOpt radius l) l := by
  cases userLocation with
  | none => cases sortOpt <;> simp [V1.geoFilter]
  | some loc =>
    cases sortOpt <;> simp [V1.geoFilter]

lemma geoFilterV2_sublist {α : Type} [LinearOrder α] (dist : α → α → α → α → α)
    (userLocation : Option (UserLocation α)) (sortOpt : SortOption) (radius : α)
    (l : List (FreeEvent α)) :
    List.Sublist (V2.geoFilter dist userLocation sortOpt radius l) l := by
  cases userLocation with
  | none => cases sortOpt <;> simp [V2.geoFilter]
  | some loc =>
    cases sortOpt <;> simp [V2.geoFilter]

/-! ### Characterizations of the pipeline stages -/

lemma withinRadius_eq_true_iff {α : Type} [LinearOrder α] (dist : α → α → α → α → α)
    (loc : UserLocation α) (radius : α) (e : FreeEvent α) :
    withinRadius dist loc radius e = true ↔
      ∃ p : α × α, coordinatesOf e = some p ∧
        dist loc.latitude loc.longitude p.1 p.2 ≤ radius := by
  unfold withinRadius
  cases h : coordinatesOf e with
  | none => simp
  | some p => simp

lemma geoFilterV1_none {α : Type} [LinearOrder α] (dist : α → α → α → α → α)
    (sortOpt : SortOption) (radius : α) (l : List (FreeEvent α)) :
    V1.geoFilter dist none sortOpt radius l = l := by
  cases sortOpt <;> rfl

lemma geoFilterV1_nearby {α : Type} [LinearOrder α] (dist : α → α → α → α → α)
    (loc : UserLocation α) (radius : α) (l : List (FreeEvent α)) :
    V1.geoFilter dist (some loc) SortOption.NEARBY radius l =
      l.filter (withinRadius dist loc radius) := rfl

lemma geoFilterV1_not_nearby {α : Type} [LinearOrder α] (dist : α → α → α → α → α)
    (userLocation : Option (UserLocation α)) (sortOpt : SortOption)
    (radius : α) (l : List (FreeEvent α)) (h : sortOpt ≠ SortOption.NEARBY) :
    V1.geoFilter dist userLocation sortOpt radius l = l := by
  cases userLocation <;> cases sortOpt <;> first | rfl | exact absurd rfl h

lemma geoFilterV2_none {α : Type} [LinearOrder α] (dist : α → α → α → α → α)
    (sortOpt : SortOption) (radius : α) (l : List (FreeEvent α)) :
    V2.geoFilter dist none sortOpt radius l = l := by
  cases sortOpt <;> rfl

lemma geoFilterV2_nearby {α : Type} [LinearOrder α] (dist : α → α → α → α → α)
    (loc : UserLocation α) (radius : α) (l : List (FreeEvent α)) :
    V2.geoFilter dist (some loc) SortOption.NEARBY radius l =
      l.filter hasValidCoordinates := rfl

lemma geoFilterV2_not_nearby {α : Type} [LinearOrder α] (dist : α → α → α → α → α)
    (loc : UserLocation α) (sortOpt : SortOption)
    (radius : α) (l : List (FreeEvent α)) (h : sortOpt ≠ SortOption.NEARBY) :
    V2.geoFilter dist (some loc) sortOpt radius l =
      l.filter (withinRadius dist loc radius) := by
  cases sortOpt <;> first | rfl | exact absurd rfl h

lemma categoryFilter_all {α : Type} (l : List (FreeEvent α)) :
    categoryFilter "ALL" l = l := if_pos rfl

lemma mem_categoryFilter {α : Type} (c : String) (hc : c ≠ "ALL")
    (l : List (FreeEvent α)) (e : FreeEvent α) :
    e ∈ categoryFilter c l ↔ e ∈ l ∧ e.category = c := by
  unfold categoryFilter
  rw [if_neg hc]
  simp [List.mem_filter]

lemma categoryFilter_idem {α : Type} (c : String) (l : List (FreeEvent α)) :
    categoryFilter c (categoryFilter c l) = categoryFilter c l := by
  by_cases hc : c = "ALL"
  · simp [categoryFilter, hc]
  · simp only [categoryFilter, if_neg hc]
    rw [List.filter_filter]
    congr 1
    funext e
    exact Bool.and_self _

lemma sortEvents_nearby_none {α : Type} [LinearOrder α] (dist : α → α → α → α → α)
    (l : List (FreeEvent α)) :
    sortEvents dist SortOption.NEARBY none l = l := rfl

lemma pairwise_recent_sort {α : Type} (l : List (FreeEvent α)) :
    (List.insertionSort recentLE l).Pairwise (recentLE (α := α)) :=
  pairwise_insertionSort_of recentLE (fun _ => True)
    (fun x y _ _ => le_total y.created_at x.created_at)
    (fun _ _ _ _ _ _ hxy hyz => le_trans hyz hxy)
    l (fun _ _ => trivial)

lemma recent_sort_stable {α : Type} (l : List (FreeEvent α)) (t : Int) :
    (List.insertionSort recentLE l).filter (fun e => decide (e.created_at = t)) =
      l.filter (fun e => decide (e.created_at = t)) := by
  refine filter_insertionSort recentLE _ ?_ l
  intro a b hpa hnr
  simp only [decide_eq_true_eq] at hpa
  have hlt : a.created_at < b.created_at := not_le.mp hnr
  simp only [decide_eq_false_iff_not]
  omega

lemma sortEvents_nearby_some {α : Type} [LinearOrder α] (dist : α → α → α → α → α)
    (loc : UserLocation α) (l : List (FreeEvent α)) :
    sortEvents dist SortOption.NEARBY (some loc) l =
      List.insertionSort (nearbyLE dist loc) l := rfl

lemma nearbyLE_iff {α : Type} [LinearOrder α] (dist : α → α → α → α → α)
    (loc : UserLocation α) {a b : FreeEvent α} {pa pb : α × α}
    (ha : coordinatesOf a = some pa) (hb : coordinatesOf b = some pb) :
    nearbyLE dist loc a b ↔
      dist loc.latitude loc.longitude pa.1 pa.2 ≤
        dist loc.latitude loc.longitude pb.1 pb.2 := by
  unfold nearbyLE
  rw [ha, hb]

lemma haversineToUser_eq (loc : UserLocation ℝ) {e : FreeEvent ℝ} {pa : ℝ × ℝ}
    (h : coordinatesOf e = some pa) :
    haversineToUser loc e = calculateDistance loc.latitude loc.longitude pa.1 pa.2 := by
  unfold haversineToUser
  rw [h]

/-! ### Claims -/

/-- Claim C9: the distance utility is symmetric, `distance(A,B) =
distance(B,A)` for all coordinate pairs, and the distance from any point to
itself is 0. -/
theorem c9_theorem :
    (∀ lat1 lon1 lat2 lon2 : ℝ,
      calculateDistance lat1 lon1 lat2 lon2 = calculateDistance lat2 lon2 lat1 lon1)
    ∧ (∀ lat lon : ℝ, calculateDistance lat lon lat lon = 0) :=
  ⟨calculateDistance_comm, calculateDistance_self⟩

/-- Claim C5, counterexample to the stated numeric instance: the distance
between (0,0) and (0,1) degrees is NOT 69.17 miles up to floating-point
tolerance; it differs from 69.17 by more than 0.01 (its true value is
`3958.8 * π / 180 ≈ 69.094`). -/
theorem c5_counterexample : 1 / 100 < |calculateDistance 0 0 0 1 - 69.17| := by
  have h1 := calculateDistance_zero_one_lt
  have h2 := calculateDistance_zero_one_gt
  rw [abs_sub_comm, abs_of_pos (by linarith)]
  linarith

/-- Claim C5 as amended: the utility computes exactly the haversine formula
stated in the spec (degrees to radians, `a = sin²(Δlat/2) +
cos(lat1)·cos(lat2)·sin²(Δlon/2)`, `2·R·atan2(√a, √(1−a))`, R = 3958.8
miles), and the distance between (0,0) and (0,1) degrees is ≈ 69.09 miles
(within 0.01), not 69.17. -/
theorem c5_theorem :
    (∀ lat1 lon1 lat2 lon2 : ℝ,
      calculateDistance lat1 lon1 lat2 lon2 = haversineSpec lat1 lon1 lat2 lon2)
    ∧ |calculateDistance 0 0 0 1 - 69.09| < 1 / 100 := by
  refine ⟨calculateDistance_eq_haversineSpec, ?_⟩
  rw [abs_lt]
  constructor
  · linarith [calculateDistance_zero_one_gt]
  · linarith [calculateDistance_zero_one_lt]

/-- Claim C8: the category filter with the ALL sentinel is the identity;
with a specific category it returns exactly the events whose category field
equals the selection under exact string equality; and it is idempotent. -/
theorem c8_theorem {α : Type} (c : String) (hc : c ≠ "ALL")
    (l : List (FreeEvent α)) :
    categoryFilter "ALL" l = l
    ∧ (∀ e, e ∈ categoryFilter c l ↔ e ∈ l ∧ e.category = c)
    ∧ categoryFilter c (categoryFilter c l) = categoryFilter c l :=
  ⟨categoryFilter_all l, fun e => mem_categoryFilter c hc l e, categoryFilter_idem c l⟩

/-- Witness for C8 at a concrete category and list. -/
theorem c8_witness :
    categoryFilter "ALL" [evA, evB] = [evA, evB]
    ∧ (evA ∈ categoryFilter "FOOD" [evA, evB] ↔
        evA ∈ [evA, evB] ∧ evA.category = "FOOD")
    ∧ categoryFilter "FOOD" (categoryFilter "FOOD" [evA, evB]) =
        categoryFilter "FOOD" [evA, evB] :=
  ⟨(c8_theorem ("FOOD") (by decide) [evA, evB]).1,
   (c8_theorem ("FOOD") (by decide) [evA, evB]).2.1 evA,
   (c8_theorem ("FOOD") (by decide) [evA, evB]).2.2⟩

/-- Claim C6: when the user location is absent, both versions of the geo
filter are the identity on any event set, and with the NEARBY strategy the
whole pipeline reduces to the category filter (the NEARBY sort is a no-op
preserving input order). -/
theorem c6_theorem {α : Type} [LinearOrder α] (dist : α → α → α → α → α)
    (st : FilterState α) (l : List (FreeEvent α)) (hloc : st.userLocation = none) :
    V1.geoFilter dist st.userLocation st.selectedSortOption st.selectedDistance l = l
    ∧ V2.geoFilter dist st.userLocation st.selectedSortOption st.selectedDistance l = l
    ∧ (st.selectedSortOption = SortOption.NEARBY →
        V1.applyFiltersAndSort dist st l = categoryFilter st.selectedCategory l
        ∧ V2.applyFiltersAndSort dist st l = categoryFilter st.selectedCategory l) := by
  refine ⟨?_, ?_, ?_⟩
  · rw [hloc]
    exact geoFilterV1_none dist st.selectedSortOption st.selectedDistance l
  · rw [hloc]
    exact geoFilterV2_none dist st.selectedSortOption st.selectedDistance l
  · intro hnear
    unfold V1.applyFiltersAndSort V2.applyFiltersAndSort
    rw [hloc, hnear, geoFilterV1_none, geoFilterV2_none, sortEvents_nearby_none]
    exact ⟨rfl, rfl⟩

/-- Witness for C6 at a concrete state and list. -/
theorem c6_witness :
    V1.applyFiltersAndSort distZero ⟨"FOOD", SortOption.NEARBY, 5, none⟩ [evA, evB] =
      categoryFilter "FOOD" [evA, evB] :=
  ((c6_theorem distZero ⟨"FOOD", SortOption.NEARBY, 5, none⟩ [evA, evB] rfl).2.2 rfl).1

/-- Claim C10: for every filter state, both pipeline versions output a
permutation of a sublist of the input: no event occurs more often in the
output than in the input, so nothing is synthesized or duplicated. -/
theorem c10_theorem {α : Type} [LinearOrder α] [DecidableEq α]
    (dist : α → α → α → α → α) (st : FilterState α) (l : List (FreeEvent α))
    (e : FreeEvent α) :
    (V1.applyFiltersAndSort dist st l).count e ≤ l.count e
    ∧ (V2.applyFiltersAndSort dist st l).count e ≤ l.count e := by
  constructor
  · unfold V1.applyFiltersAndSort
    rw [(sortEvents_perm dist st.selectedSortOption st.userLocation _).count_eq e]
    exact le_trans
      ((geoFilterV1_sublist dist st.userLocation st.selectedSortOption
        st.selectedDistance _).count_le e)
      ((categoryFilter_sublist st.selectedCategory l).count_le e)
  · unfold V2.applyFiltersAndSort
    rw [(sortEvents_perm dist st.selectedSortOption st.userLocation _).count_eq e]
    exact le_trans
      ((geoFilterV2_sublist dist st.userLocation st.selectedSortOption
        st.selectedDistance _).count_le e)
      ((categoryFilter_sublist st.selectedCategory l).count_le e)

/-- Claim C1, counterexample: with an absent organization tag the university
query is unconstrained, so the merge is NOT restricted to the public
partition — a foreign-scoped event is returned, and a public event is
returned twice. -/
theorem c1_counterexample :
    combinedEvents [evPublic] 0 (none : Option String) = [evPublic, evPublic]
    ∧ combinedEvents [evOther] 0 (none : Option String) = [evOther]
    ∧ evOther.university = some "Harvard" := by decide

/-- Claim C1 as amended: when the caller's organization tag is present and
non-empty, every merged event is scope-equal to the caller's organization or
scope-absent (public), and (for a duplicate-free backend table) no event
appears twice; with an absent or empty tag the university query is
unconstrained and these guarantees fail. -/
theorem c1_theorem {α : Type} (userUniversity : Option String)
    (hu : isTruthy userUniversity = true) (table : List (FreeEvent α))
    (today : Int) (hnd : table.Nodup) :
    (∀ e ∈ combinedEvents table today userUniversity,
        e.university = userUniversity ∨ e.university = none)
    ∧ (combinedEvents table today userUniversity).Nodup := by
  obtain ⟨u, rfl⟩ : ∃ u, userUniversity = some u := by
    cases userUniversity with
    | none => simp [isTruthy] at hu
    | some u => exact ⟨u, rfl⟩
  constructor
  · intro e he
    rcases List.mem_append.mp he with h | h
    · left
      unfold universityQuery at h
      rw [if_pos hu] at h
      have := (List.mem_filter.mp h).2
      simpa using this
    · right
      unfold publicQuery at h
      have := (List.mem_filter.mp h).2
      simp at this
      exact this.2
  · apply List.Nodup.append
    · unfold universityQuery
      rw [if_pos hu]
      exact (hnd.filter _).filter _
    · exact hnd.filter _
    · intro e he1 he2
      unfold universityQuery at he1
      rw [if_pos hu] at he1
      have h1 := (List.mem_filter.mp he1).2
      have h2 := (List.mem_filter.mp he2).2
      simp at h1 h2
      rw [h1] at h2
      simp at h2

/-- Witness for C1 at a concrete tag and table. -/
theorem c1_witness :
    isTruthy (some "MIT") = true
    ∧ (∀ e ∈ combinedEvents [evMIT, evPublic, evOther] 0 (some "MIT"),
        e.university = some "MIT" ∨ e.university = none)
    ∧ (combinedEvents [evMIT, evPublic, evOther] 0 (some "MIT")).Nodup := by
  have h := c1_theorem (some "MIT") (by decide) [evMIT, evPublic, evOther] 0 (by decide)
  exact ⟨by decide, h.1, h.2⟩

/-- Claim C3, counterexample: when the get-current-user call is rejected,
`fetchEvents` produces NO event list at all (the code throws into its catch
block), even though the public partition is non-empty — it does not fall
back to the public-only result. -/
theorem c3_counterexample :
    fetchEvents true false false [evPublic] 0 (none : Option String) = none
    ∧ publicQuery [evPublic] 0 = [evPublic] := by decide

/-- Claim C3 as amended: an auth/session failure aborts the fetch and
produces no event list; it is a failure of the organization-scoped QUERY
(not of auth) that degrades to the public-only partition. -/
theorem c3_theorem {α : Type} (q1 q2 : Bool) (table : List (FreeEvent α))
    (today : Int) (userUniversity : Option String) :
    fetchEvents true q1 q2 table today userUniversity = none
    ∧ fetchEvents false true false table today userUniversity =
        some (publicQuery table today) := by
  constructor
  · rfl
  · simp [fetchEvents]

/-- Claim C4, the code evaluated at the failing input: with the ALL category,
no user location and RECENT sort, no filter stage allocates a fresh array,
so the in-place `.sort` reorders the caller's array — after the call the
input array holds the sorted order, not the original one. -/
theorem c4_theorem :
    V1.inputAfter distZero stRecentZ [evA, evB] = [evB, evA]
    ∧ [evB, evA] ≠ ([evA, evB] : List (FreeEvent Int)) := by decide

/-- Claim C2, counterexample: with a user location present and the RECENT
strategy, version 1 skips the geo stage entirely, so an event about 69.09
miles away (far beyond the 5-mile radius) still reaches the geo-stage
output. -/
theorem c2_counterexample :
    eFar ∈ V1.geoFilter calculateDistance (some uZero) SortOption.RECENT 5 [eFar]
    ∧ coordinatesOf eFar = some (0, 1)
    ∧ 5 < calculateDistance 0 0 0 1 := by
  refine ⟨?_, rfl, ?_⟩
  · rw [geoFilterV1_not_nearby _ _ _ _ _ (by decide)]
    exact List.mem_singleton_self eFar
  · linarith [calculateDistance_zero_one_gt]

/-- Claim C2 as amended: with a user location present, version 1 enforces
the radius exactly when the strategy is NEARBY (retaining exactly the events
with a valid coordinate whose haversine distance is within the radius) and
passes everything through otherwise; version 2 enforces the radius exactly
when the strategy is NOT NEARBY, and for NEARBY retains exactly the
valid-coordinate events regardless of distance. -/
theorem c2_theorem (st : FilterState ℝ) (loc : UserLocation ℝ)
    (l : List (FreeEvent ℝ)) (e : FreeEvent ℝ)
    (hloc : st.userLocation = some loc) :
    (st.selectedSortOption = SortOption.NEARBY →
      (e ∈ V1.geoFilter calculateDistance st.userLocation st.selectedSortOption
          st.selectedDistance l ↔
        e ∈ l ∧ ∃ p : ℝ × ℝ, coordinatesOf e = some p ∧
          calculateDistance loc.latitude loc.longitude p.1 p.2 ≤ st.selectedDistance))
    ∧ (st.selectedSortOption ≠ SortOption.NEARBY →
        V1.geoFilter calculateDistance st.userLocation st.selectedSortOption
          st.selectedDistance l = l)
    ∧ (st.selectedSortOption ≠ SortOption.NEARBY →
      (e ∈ V2.geoFilter calculateDistance st.userLocation st.selectedSortOption
          st.selectedDistance l ↔
        e ∈ l ∧ ∃ p : ℝ × ℝ, coordinatesOf e = some p ∧
          calculateDistance loc.latitude loc.longitude p.1 p.2 ≤ st.selectedDistance))
    ∧ (st.selectedSortOption = SortOption.NEARBY →
      (e ∈ V2.geoFilter calculateDistance st.userLocation st.selectedSortOption
          st.selectedDistance l ↔
        e ∈ l ∧ (coordinatesOf e).isSome = true)) := by
  rw [hloc]
  refine ⟨?_, ?_, ?_, ?_⟩
  · intro hnear
    rw [hnear, geoFilterV1_nearby, List.mem_filter, withinRadius_eq_true_iff]
  · intro hne
    exact geoFilterV1_not_nearby _ _ _ _ _ hne
  · intro hne
    rw [geoFilterV2_not_nearby _ _ _ _ _ hne, List.mem_filter,
      withinRadius_eq_true_iff]
  · intro hnear
    rw [hnear, geoFilterV2_nearby, List.mem_filter]
    exact Iff.rfl

/-- Witness for C2: an event at the user's own position (distance 0) passes
the NEARBY geo stage of version 1, and the RECENT geo stage of version 1
passes everything through. -/
theorem c2_witness :
    eNear ∈ V1.geoFilter calculateDistance (some uZero) SortOption.NEARBY 5 [eNear]
    ∧ V1.geoFilter calculateDistance (some uZero) SortOption.RECENT 5 [eNear] =
        [eNear] := by
  constructor
  · exact ((c2_theorem stNearbyR uZero [eNear] eNear rfl).1 rfl).mpr
      ⟨List.mem_singleton_self _,
       ⟨(0, 0), rfl, by
        show calculateDistance 0 0 0 0 ≤ (5 : ℝ)
        rw [calculateDistance_self]
        norm_num⟩⟩
  · exact (c2_theorem stRecentR uZero [eNear] eNear rfl).2.1 (by decide)

/-- Claim C7: the RECENT strategy sorts any list into non-increasing
creation timestamps, keeping the relative order of equal timestamps, and the
NEARBY strategy with a user location present sorts any list of
valid-coordinate events (which is what the geo stage hands it) into
non-decreasing haversine distances from the user. -/
theorem c7_theorem :
    (∀ (α : Type) [LinearOrder α] (dist : α → α → α → α → α)
      (userLocation : Option (UserLocation α)) (l : List (FreeEvent α)),
      (sortEvents dist SortOption.RECENT userLocation l).Pairwise
          (fun a b => b.created_at ≤ a.created_at)
      ∧ (∀ t : Int,
          (sortEvents dist SortOption.RECENT userLocation l).filter
              (fun e => decide (e.created_at = t)) =
            l.filter (fun e => decide (e.created_at = t))))
    ∧ (∀ (loc : UserLocation ℝ) (l : List (FreeEvent ℝ)),
        (∀ e ∈ l, (coordinatesOf e).isSome = true) →
        (sortEvents calculateDistance SortOption.NEARBY (some loc) l).Pairwise
          (fun a b => haversineToUser loc a ≤ haversineToUser loc b)) := by
  constructor
  · intro α _inst dist uloc l
    exact ⟨pairwise_recent_sort l, fun t => recent_sort_stable l t⟩
  · intro loc l hval
    rw [sortEvents_nearby_some]
    have hpair : (List.insertionSort (nearbyLE calculateDistance loc) l).Pairwise
        (nearbyLE calculateDistance loc) := by
      refine pairwise_insertionSort_of _ (fun e => (coordinatesOf e).isSome = true)
        ?_ ?_ l hval
      · intro x y hx hy
        obtain ⟨px, hpx⟩ := Option.isSome_iff_exists.mp hx
        obtain ⟨py, hpy⟩ := Option.isSome_iff_exists.mp hy
        rw [nearbyLE_iff calculateDistance loc hpx hpy,
          nearbyLE_iff calculateDistance loc hpy hpx]
        exact le_total _ _
      · intro x y z hx hy hz hxy hyz
        obtain ⟨px, hpx⟩ := Option.isSome_iff_exists.mp hx
        obtain ⟨py, hpy⟩ := Option.isSome_iff_exists.mp hy
        obtain ⟨pz, hpz⟩ := Option.isSome_iff_exists.mp hz
        rw [nearbyLE_iff calculateDistance loc hpx hpy] at hxy
        rw [nearbyLE_iff calculateDistance loc hpy hpz] at hyz
        rw [nearbyLE_iff calculateDistance loc hpx hpz]
        exact le_trans hxy hyz
    refine hpair.imp_of_mem ?_
    intro a b ha hb hr
    have ha' := hval a ((List.perm_insertionSort _ l).mem_iff.mp ha)
    have hb' := hval b ((List.perm_insertionSort _ l).mem_iff.mp hb)
    obtain ⟨pa, hpa⟩ := Option.isSome_iff_exists.mp ha'
    obtain ⟨pb, hpb⟩ := Option.isSome_iff_exists.mp hb'
    rw [haversineToUser_eq loc hpa, haversineToUser_eq loc hpb]
    exact (nearbyLE_iff calculateDistance loc hpa hpb).mp hr

/-- Witness for C7 at concrete lists. -/
theorem c7_witness :
    (sortEvents distZero SortOption.RECENT none [evA, evB]).Pairwise
        (fun a b => b.created_at ≤ a.created_at)
    ∧ (sortEvents distZero SortOption.RECENT none [evA, evB]).filter
          (fun e => decide (e.created_at = 0)) =
        [evA, evB].filter (fun e => decide (e.created_at = 0))
    ∧ (sortEvents calculateDistance SortOption.NEARBY (some uZero) [eNear]).Pairwise
        (fun a b => haversineToUser uZero a ≤ haversineToUser uZero b) := by
  refine ⟨(c7_theorem.1 Int distZero none [evA, evB]).1,
    (c7_theorem.1 Int distZero none [evA, evB]).2 0,
    c7_theorem.2 uZero [eNear] ?_⟩
  intro e he
  rw [List.mem_singleton] at he
  subst he
  rfl

end Free
